import Mathlib

/-
Shallow embedding of src/pse_bench.py (Perspective Shift Effect benchmark).

Modelling conventions:
- YAML scalars that the script touches are either strings or null; a parsed
  prompt file is a list of mappings, each mapping an association list from
  string keys to YAML values (YAML mappings have unique keys).
- Python None is Option.none; Python floats are modelled as rationals.
- The OpenAI chat client (call_model's network call) is an oracle parameter
  of type GenClient: given model name, message content (p.prompt, which may
  be None), max_tokens and temperature, it either fails (transport error,
  Except.error) or returns text, latency and total tokens.
- The nltk sentence_bleu and rouge_score rougeL scorers are external
  libraries, modelled as oracle parameters; compute_bleu and compute_rouge
  embed the wrapper code in the source, including the argument roles the
  wrappers pass to the libraries.
- Side effects (prompt loading, remote calls, file writes, console output)
  are recorded as an event trace; an uncaught exception is the Option PyError
  component, and events already emitted before the exception stay in the
  trace, matching Python execution order.
- pandas: DataFrame of a non-empty list of asdict(Result) rows has exactly
  the dataclass fields as columns in declaration order and one row per
  record; DataFrame([]) has no columns, so a column lookup raises KeyError.
  Series.notna().any() is true iff some entry is non-null; Series.mean()
  averages the non-null entries and is NaN when there are none; any float
  comparison against NaN is False (pyGeOpt with none).
- os.path.splitext is embedded as splitextStem, following CPython's
  algorithm (extension starts at the last dot after the last separator,
  unless the basename consists of leading dots up to there).
-/

namespace PSE

/-- YAML scalar values reaching the script: null or a string. -/
inductive YVal where
  | vnull
  | vstr (s : String)
deriving DecidableEq, Repr

/-- A parsed YAML mapping: association list with unique keys. -/
abbrev Entry := List (String × YVal)

/-- Key lookup in a parsed mapping. -/
def lookupKey : Entry → String → Option YVal
  | [], _ => none
  | (k, v) :: rest, key => if k = key then some v else lookupKey rest key

/-- Python dict.get on a parsed YAML mapping: a missing key and a null value
both come back as Python None; a string value comes back as the string. -/
def pyGet (e : Entry) (k : String) : Option String :=
  match lookupKey e k with
  | some (YVal.vstr s) => some s
  | _ => none

/-- The Prompt dataclass as it exists at runtime: load_prompts fills both
fields from dict.get, so each can hold Python None. -/
structure Prompt where
  prompt : Option String
  reference : Option String
deriving DecidableEq, Repr

/-- One generation outcome of call_model: completion text, wall-clock
latency, service-reported total tokens. -/
structure Outcome where
  text : String
  latency : ℚ
  tokens : ℕ
deriving DecidableEq, Repr

/-- The Result dataclass: per-prompt record assembled by evaluate. -/
structure Result where
  prompt : Option String
  base_text : String
  shift_text : String
  base_latency : ℚ
  shift_latency : ℚ
  base_tokens : ℕ
  shift_tokens : ℕ
  bleu_base_shift : ℚ
  rouge_base_shift : ℚ
  bleu_ref_base : Option ℚ
  bleu_ref_shift : Option ℚ
  rouge_ref_base : Option ℚ
  rouge_ref_shift : Option ℚ
deriving DecidableEq, Repr

/-- The dataclass fields of Result in declaration order: the columns of the
DataFrame built from a non-empty record list. -/
def resultFields : List String :=
  ["prompt", "base_text", "shift_text", "base_latency", "shift_latency",
   "base_tokens", "shift_tokens", "bleu_base_shift", "rouge_base_shift",
   "bleu_ref_base", "bleu_ref_shift", "rouge_ref_base", "rouge_ref_shift"]

/-- Observable effects of a run, in execution order. -/
inductive Event where
  | loadPrompts
  | genCall (model : String) (content : Option String)
  | writeCsv (cols : List String) (nrows : ℕ)
  | writeMd (path : String)
  | printTable (rows : List String)
  | printFinal (success : Bool)
deriving DecidableEq, Repr

/-- Uncaught Python exceptions the script can raise. -/
inductive PyError where
  | valueError
  | keyError
  | genFailure (msg : String)
deriving DecidableEq, Repr

/-- The remote generation oracle behind openai.chat.completions.create:
model name, message content, max_tokens, temperature. -/
abbrev GenClient := String → Option String → ℕ → ℚ → Except String Outcome

/-- The nltk sentence_bleu oracle: list of references, then candidate (each
a token list), with the chencherry.method1 smoothing baked in. -/
abbrev BleuFn := List (List String) → List String → ℚ

/-- The rouge_score rougeL oracle: RougeScorer.score(target, prediction)
fmeasure, with use_stemmer=True baked in. -/
abbrev RougeFn := String → String → ℚ

/-- load_prompts over already-parsed YAML data: one Prompt per entry in file
order, each field through dict.get. -/
def load_prompts (data : List Entry) : List Prompt :=
  data.map (fun item => ⟨pyGet item "prompt", pyGet item "reference"⟩)

/-- call_model: one network call via the oracle. -/
def call_model (client : GenClient) (model : String) (content : Option String)
    (maxTokens : ℕ) (temp : ℚ) : Except String Outcome :=
  client model content maxTokens temp

/-- Python str.split() whitespace classification. -/
def isPyWs (c : Char) : Bool :=
  c = ' ' ∨ c = '\t' ∨ c = '\n' ∨ c = '\r' ∨ c = '\x0b' ∨ c = '\x0c'

/-- Python str.split() with no argument: split on whitespace runs, dropping
empty pieces. -/
def pySplitAux : List Char → List Char → List String
  | [], acc => if acc.isEmpty then [] else [String.mk acc.reverse]
  | c :: cs, acc =>
    if isPyWs c then
      if acc.isEmpty then pySplitAux cs []
      else String.mk acc.reverse :: pySplitAux cs []
    else pySplitAux cs (c :: acc)

def pySplit (s : String) : List String := pySplitAux s.toList []

/-- compute_bleu: sentence_bleu([reference.split()], candidate.split(), ...).
The reference goes in the references list, the candidate is the hypothesis. -/
def compute_bleu (sb : BleuFn) (candidate reference : String) : ℚ :=
  sb [pySplit reference] (pySplit candidate)

/-- compute_rouge: scorer.score(reference, candidate)["rougeL"].fmeasure.
RougeScorer.score takes the target (reference) first. -/
def compute_rouge (rgL : RougeFn) (candidate reference : String) : ℚ :=
  rgL reference candidate

/-- Python truthiness of an Optional[str]: None and the empty string are
falsy. -/
def pyTruthyStr : Option String → Bool
  | none => false
  | some s => !(s == "")

/-- The Result record evaluate assembles for one prompt from the two
generation outcomes. The reference-dependent fields follow the
"if p.reference:" truthiness test in the source. -/
def mkResult (sb : BleuFn) (rgL : RougeFn) (p : Prompt) (b s : Outcome) : Result :=
  let refFields : Option ℚ × Option ℚ × Option ℚ × Option ℚ :=
    match p.reference with
    | some ref =>
      if ref = "" then (none, none, none, none)
      else (some (compute_bleu sb b.text ref), some (compute_bleu sb s.text ref),
            some (compute_rouge rgL b.text ref), some (compute_rouge rgL s.text ref))
    | none => (none, none, none, none)
  { prompt := p.prompt
    base_text := b.text
    shift_text := s.text
    base_latency := b.latency
    shift_latency := s.latency
    base_tokens := b.tokens
    shift_tokens := s.tokens
    bleu_base_shift := compute_bleu sb s.text b.text
    rouge_base_shift := compute_rouge rgL s.text b.text
    bleu_ref_base := refFields.1
    bleu_ref_shift := refFields.2.1
    rouge_ref_base := refFields.2.2.1
    rouge_ref_shift := refFields.2.2.2 }

/-- evaluate: for each prompt in order, call the base model then the shift
model, score, assemble a record. The event list records every remote call
made; a client failure propagates, discarding records built so far. -/
def evaluate (client : GenClient) (sb : BleuFn) (rgL : RougeFn)
    (baseModel shiftModel : String) (maxTokens : ℕ) (temp : ℚ) :
    List Prompt → List Event × Except String (List Result)
  | [] => ([], Except.ok [])
  | p :: ps =>
    match call_model client baseModel p.prompt maxTokens temp with
    | Except.error e => ([Event.genCall baseModel p.prompt], Except.error e)
    | Except.ok b =>
      match call_model client shiftModel p.prompt maxTokens temp with
      | Except.error e =>
        ([Event.genCall baseModel p.prompt, Event.genCall shiftModel p.prompt],
         Except.error e)
      | Except.ok s =>
        let rest := evaluate client sb rgL baseModel shiftModel maxTokens temp ps
        (Event.genCall baseModel p.prompt :: Event.genCall shiftModel p.prompt :: rest.fst,
         rest.snd.map (fun rs => mkResult sb rgL p b s :: rs))

/-- pandas Series.mean over an optional column: average of the non-null
entries, NaN (none) when there are none. -/
def colMean (xs : List (Option ℚ)) : Option ℚ :=
  let vs := xs.filterMap id
  if vs.length = 0 then none else some (vs.sum / (vs.length : ℚ))

/-- A Python float comparison x >= y where either side may be NaN (none):
any comparison involving NaN is False. -/
def pyGeOpt : Option ℚ → Option ℚ → Bool
  | some a, some b => decide (b ≤ a)
  | _, _ => false

/-- Multiply an optional float by a constant (NaN propagates). -/
def optMul (c : ℚ) : Option ℚ → Option ℚ :=
  Option.map (fun x => c * x)

/-- CPython os.path.splitext, stem part: cut at the last dot after the last
path separator, unless only dots precede it in the basename. -/
def lastIdxAux (cs : List Char) (c : Char) (i : ℕ) (best : Option ℕ) : Option ℕ :=
  match cs with
  | [] => best
  | x :: xs => lastIdxAux xs c (i + 1) (if x = c then some i else best)

def splitextStem (p : String) : String :=
  let cs := p.toList
  match lastIdxAux cs '.' 0 none with
  | none => p
  | some d =>
    let s0 : ℕ :=
      match lastIdxAux cs '/' 0 none with
      | none => 0
      | some si => si + 1
    if s0 ≤ d ∧ ((cs.drop s0).take (d - s0)).any (fun c => c ≠ '.') then
      String.mk (cs.take d)
    else p

/-- summarize: build the DataFrame, write the CSV to out_path and the
markdown sibling, print the comparison table, print the final lift message.
With no records the DataFrame has no columns, so the lookup of
bleu_ref_base raises KeyError after both files are written and before any
console output. -/
def summarize (results : List Result) (outPath : String) :
    List Event × Option PyError :=
  let cols := if results.isEmpty then [] else resultFields
  let fileEvents := [Event.writeCsv cols results.length,
                     Event.writeMd (splitextStem outPath ++ ".md")]
  if results.isEmpty then
    (fileEvents, some PyError.keyError)
  else
    let bleuBaseCol := results.map (fun r => r.bleu_ref_base)
    let bleuShiftCol := results.map (fun r => r.bleu_ref_shift)
    let rougeBaseCol := results.map (fun r => r.rouge_ref_base)
    let hasBleu := bleuBaseCol.any Option.isSome
    let hasRouge := rougeBaseCol.any Option.isSome
    let baseBleu := colMean bleuBaseCol
    let shiftBleu := colMean bleuShiftCol
    let tableRows := (if hasBleu then ["Avg BLEU vs Ref"] else []) ++
                     (if hasRouge then ["Avg ROUGE-L vs Ref"] else [])
    let finalEvents :=
      if hasBleu then [Event.printFinal (pyGeOpt shiftBleu (optMul (3 / 2) baseBleu))]
      else []
    (fileEvents ++ [Event.printTable tableRows] ++ finalEvents, none)

/-- Environment lookup: os.environ.get; values may be empty strings. -/
def envGet : List (String × String) → String → Option String
  | [], _ => none
  | (k, v) :: rest, key => if k = key then some v else envGet rest key

/-- main after argument parsing: check BASE_MODEL and SHIFT_MODEL via Python
truthiness (missing or empty raises ValueError before anything else), then
load prompts, evaluate, summarize. -/
def mainRun (env : List (String × String)) (fileData : List Entry)
    (client : GenClient) (sb : BleuFn) (rgL : RougeFn)
    (maxTokens : ℕ) (temp : ℚ) (outPath : String) :
    List Event × Option PyError :=
  let baseModel := envGet env "BASE_MODEL"
  let shiftModel := envGet env "SHIFT_MODEL"
  if !(pyTruthyStr baseModel) || !(pyTruthyStr shiftModel) then
    ([], some PyError.valueError)
  else
    let prompts := load_prompts fileData
    let ev := evaluate client sb rgL (baseModel.getD "") (shiftModel.getD "")
      maxTokens temp prompts
    match ev.snd with
    | Except.error e => (Event.loadPrompts :: ev.fst, some (PyError.genFailure e))
    | Except.ok results =>
      let sm := summarize results outPath
      (Event.loadPrompts :: ev.fst ++ sm.fst, sm.snd)

/-- A report-output event: one of the two file writes of summarize. -/
def isWriteEvent : Event → Bool
  | Event.writeCsv _ _ => true
  | Event.writeMd _ => true
  | _ => false

/-- Whether an Except value is an error. -/
def isErrorB {ε α : Type} : Except ε α → Bool
  | Except.error _ => true
  | Except.ok _ => false

/-- A valid YAML value for a string field: present and a string. -/
def validYStr : Option YVal → Bool
  | some (YVal.vstr _) => true
  | _ => false

/-- A generation client stub that always succeeds. -/
def stubClient : GenClient := fun _ _ _ _ => Except.ok ⟨"t", 1, 1⟩

/-- A BLEU oracle stub. -/
def stubBleu : BleuFn := fun _ _ => 0

/-- A ROUGE oracle stub. -/
def stubRouge : RougeFn := fun _ _ => 0

/-- A fault-injected client that fails on the prompt text "p2". -/
def failClient : GenClient := fun _ c _ _ =>
  if c = some "p2" then Except.error "boom" else Except.ok ⟨"t", 1, 1⟩

/-- Characterisation of a successful evaluate run: the prompts pair up in
order with records built by mkResult from two successful client calls. -/
theorem evaluate_ok_forall2 (client : GenClient) (sb : BleuFn) (rgL : RougeFn)
    (bm sm : String) (mt : ℕ) (tp : ℚ) :
    ∀ (prompts : List Prompt) (results : List Result),
      (evaluate client sb rgL bm sm mt tp prompts).snd = Except.ok results →
      List.Forall₂ (fun (p : Prompt) (r : Result) => ∃ b s : Outcome,
        call_model client bm p.prompt mt tp = Except.ok b ∧
        call_model client sm p.prompt mt tp = Except.ok s ∧
        r = mkResult sb rgL p b s) prompts results
  | [], results, h => by
    simp only [evaluate, Except.ok.injEq] at h
    rw [← h]
    exact List.Forall₂.nil
  | p :: ps, results, h => by
    rcases hb : call_model client bm p.prompt mt tp with eb | b
    · rw [evaluate, hb] at h; exact absurd h (by simp)
    · rcases hs : call_model client sm p.prompt mt tp with es | s
      · rw [evaluate, hb, hs] at h; exact absurd h (by simp)
      · rcases ht : (evaluate client sb rgL bm sm mt tp ps).snd with et | rs
        · rw [evaluate, hb, hs] at h
          simp only [ht, Except.map] at h
          exact absurd h (by simp)
        · rw [evaluate, hb, hs] at h
          simp only [ht, Except.map, Except.ok.injEq] at h
          rw [← h]
          exact List.Forall₂.cons ⟨b, s, hb, hs, rfl⟩
            (evaluate_ok_forall2 client sb rgL bm sm mt tp ps rs ht)

/-- Claim C1: load_prompts evaluated at the failing input. An entry that
lacks the "prompt" key is loaded silently into a Prompt with prompt = None
(dict.get defaulting) instead of raising a parse/format error. -/
theorem c1_missing_prompt_key_loads_silently :
    load_prompts [[("reference", YVal.vstr "r")]] =
      [{ prompt := none, reference := some "r" }] := rfl

/-- Claim C4: evaluate over an empty prompt sequence returns the empty
record sequence, and its event trace shows no generation calls. -/
theorem c4_evaluate_empty (client : GenClient) (sb : BleuFn) (rgL : RougeFn)
    (bm sm : String) (mt : ℕ) (tp : ℚ) :
    evaluate client sb rgL bm sm mt tp [] = ([], Except.ok []) := rfl

/-- Claim C10, counterexample to the statement as written: on an empty
record sequence summarize does write the markdown file (right after the
CSV) before raising KeyError; only the console output is skipped. -/
theorem c10_cex_markdown_is_written :
    Event.writeMd "results.md" ∈ (summarize [] "results.csv").fst ∧
      (summarize [] "results.csv").snd = some PyError.keyError := by decide

/-- Claim C10, amended: summarize on an empty record sequence writes a CSV
with no rows and no columns and a markdown file at the sibling path, then
raises KeyError looking up bleu_ref_base, so no console output (table or
final message) is ever printed. -/
theorem c10_summarize_empty (out : String) :
    summarize [] out =
      ([Event.writeCsv [] 0, Event.writeMd (splitextStem out ++ ".md")],
       some PyError.keyError) := rfl

/-- Claim C7, counterexample to the statement as written: with both
environment variables present but BASE_MODEL set to the empty string, the
run still aborts with the configuration error instead of proceeding. -/
theorem c7_cex_empty_env_var_aborts :
    (envGet [("BASE_MODEL", ""), ("SHIFT_MODEL", "m")] "BASE_MODEL").isSome = true ∧
    (envGet [("BASE_MODEL", ""), ("SHIFT_MODEL", "m")] "SHIFT_MODEL").isSome = true ∧
    mainRun [("BASE_MODEL", ""), ("SHIFT_MODEL", "m")] [] stubClient stubBleu
        stubRouge 128 (7 / 10) "results.csv" = ([], some PyError.valueError) := by
  decide

/-- Claim C7, amended: the run aborts with the configuration error, before
any prompt loading or generation, exactly when BASE_MODEL or SHIFT_MODEL is
missing or empty; when both are present and non-empty it proceeds to load
prompts and evaluate. -/
theorem c7_env_gate (env : List (String × String)) (fileData : List Entry)
    (client : GenClient) (sb : BleuFn) (rgL : RougeFn)
    (mt : ℕ) (tp : ℚ) (out : String) :
    ((pyTruthyStr (envGet env "BASE_MODEL") &&
        pyTruthyStr (envGet env "SHIFT_MODEL")) = false →
      mainRun env fileData client sb rgL mt tp out = ([], some PyError.valueError)) ∧
    ((pyTruthyStr (envGet env "BASE_MODEL") &&
        pyTruthyStr (envGet env "SHIFT_MODEL")) = true →
      ∃ t, (mainRun env fileData client sb rgL mt tp out).fst = Event.loadPrompts :: t) := by
  constructor
  · intro h
    rcases Bool.and_eq_false_iff.mp h with hb | hs
    · simp [mainRun, hb]
    · simp [mainRun, hs]
  · intro h
    simp only [Bool.and_eq_true] at h
    obtain ⟨hb, hs⟩ := h
    rcases hev : (evaluate client sb rgL ((envGet env "BASE_MODEL").getD "")
        ((envGet env "SHIFT_MODEL").getD "") mt tp (load_prompts fileData)).snd with e | rs
    · refine ⟨(evaluate client sb rgL ((envGet env "BASE_MODEL").getD "")
        ((envGet env "SHIFT_MODEL").getD "") mt tp (load_prompts fileData)).fst, ?_⟩
      simp [mainRun, hb, hs, hev]
    · refine ⟨(evaluate client sb rgL ((envGet env "BASE_MODEL").getD "")
        ((envGet env "SHIFT_MODEL").getD "") mt tp (load_prompts fileData)).fst ++
          (summarize rs out).fst, ?_⟩
      simp [mainRun, hb, hs, hev]

/-- Closed instance of c7_env_gate: with both variables set non-empty, the
trace begins with prompt loading. -/
theorem c7_env_gate_witness :
    ∃ t, (mainRun [("BASE_MODEL", "b"), ("SHIFT_MODEL", "s")] [] stubClient
      stubBleu stubRouge 128 (7 / 10) "results.csv").fst = Event.loadPrompts :: t :=
  (c7_env_gate [("BASE_MODEL", "b"), ("SHIFT_MODEL", "s")] [] stubClient
    stubBleu stubRouge 128 (7 / 10) "results.csv").2 (by decide)

/-- The reference-dependent fields of a record are populated exactly when
the prompt's reference is truthy (present and non-empty). -/
theorem mkResult_ref_isSome (sb : BleuFn) (rgL : RougeFn) (p : Prompt)
    (b s : Outcome) :
    (mkResult sb rgL p b s).bleu_ref_base.isSome = pyTruthyStr p.reference ∧
    (mkResult sb rgL p b s).bleu_ref_shift.isSome = pyTruthyStr p.reference ∧
    (mkResult sb rgL p b s).rouge_ref_base.isSome = pyTruthyStr p.reference ∧
    (mkResult sb rgL p b s).rouge_ref_shift.isSome = pyTruthyStr p.reference := by
  rcases href : p.reference with _ | ref
  · simp [mkResult, pyTruthyStr, href]
  · by_cases hempty : ref = ""
    · simp [mkResult, pyTruthyStr, href, hempty]
    · simp [mkResult, pyTruthyStr, href, hempty]

/-- Claim C2, amended: in every successful evaluate run, the four
reference-dependent fields of each record are present exactly when the
prompt carried a non-empty reference (Python truthiness of p.reference);
records pair up with prompts in order and are values, never mutated. -/
theorem c2_ref_fields_iff_truthy_reference (client : GenClient) (sb : BleuFn)
    (rgL : RougeFn) (bm sm : String) (mt : ℕ) (tp : ℚ)
    (prompts : List Prompt) (results : List Result)
    (h : (evaluate client sb rgL bm sm mt tp prompts).snd = Except.ok results) :
    List.Forall₂ (fun (p : Prompt) (r : Result) =>
      r.bleu_ref_base.isSome = pyTruthyStr p.reference ∧
      r.bleu_ref_shift.isSome = pyTruthyStr p.reference ∧
      r.rouge_ref_base.isSome = pyTruthyStr p.reference ∧
      r.rouge_ref_shift.isSome = pyTruthyStr p.reference) prompts results := by
  refine List.Forall₂.imp ?_ (evaluate_ok_forall2 client sb rgL bm sm mt tp prompts results h)
  rintro p r ⟨b, s, hb, hs, rfl⟩
  exact mkResult_ref_isSome sb rgL p b s

/-- The record a stubbed one-prompt run produces when the reference branch
is taken: both outputs are "t", both stub scores are 0. -/
def stubRecordWithRef (p : Option String) : Result :=
  { prompt := p
    base_text := "t"
    shift_text := "t"
    base_latency := 1
    shift_latency := 1
    base_tokens := 1
    shift_tokens := 1
    bleu_base_shift := 0
    rouge_base_shift := 0
    bleu_ref_base := some 0
    bleu_ref_shift := some 0
    rouge_ref_base := some 0
    rouge_ref_shift := some 0 }

/-- The record a stubbed one-prompt run produces when the reference branch
is skipped. -/
def stubRecordNoRef (p : Option String) : Result :=
  { prompt := p
    base_text := "t"
    shift_text := "t"
    base_latency := 1
    shift_latency := 1
    base_tokens := 1
    shift_tokens := 1
    bleu_base_shift := 0
    rouge_base_shift := 0
    bleu_ref_base := none
    bleu_ref_shift := none
    rouge_ref_base := none
    rouge_ref_shift := none }

/-- Claim C2, counterexample to the statement as written: a prompt that
carries a reference, namely the empty string, is processed into a record
whose reference-dependent fields are all absent. -/
theorem c2_cex_empty_string_reference :
    (evaluate stubClient stubBleu stubRouge "b" "s" 128 (7 / 10)
        [{ prompt := some "q", reference := some "" }]).snd =
      Except.ok [stubRecordNoRef (some "q")] ∧
    (some "" : Option String).isSome = true := ⟨rfl, rfl⟩

/-- Closed instance of c2_ref_fields_iff_truthy_reference at a one-prompt
run with a non-empty reference. -/
theorem c2_ref_fields_witness :
    List.Forall₂ (fun (p : Prompt) (r : Result) =>
      r.bleu_ref_base.isSome = pyTruthyStr p.reference ∧
      r.bleu_ref_shift.isSome = pyTruthyStr p.reference ∧
      r.rouge_ref_base.isSome = pyTruthyStr p.reference ∧
      r.rouge_ref_shift.isSome = pyTruthyStr p.reference)
      [{ prompt := some "q", reference := some "r" }]
      [stubRecordWithRef (some "q")] :=
  c2_ref_fields_iff_truthy_reference stubClient stubBleu stubRouge "b" "s" 128 (7 / 10)
    [{ prompt := some "q", reference := some "r" }]
    [stubRecordWithRef (some "q")] rfl

/-- Claim C5: in every successful evaluate run, the pairwise fields score
the shift output as candidate against the base output as reference for both
metrics, and the reference fields score base (respectively shift) as
candidate against the prompt's reference. -/
theorem c5_scoring_roles (client : GenClient) (sb : BleuFn) (rgL : RougeFn)
    (bm sm : String) (mt : ℕ) (tp : ℚ)
    (prompts : List Prompt) (results : List Result)
    (h : (evaluate client sb rgL bm sm mt tp prompts).snd = Except.ok results) :
    List.Forall₂ (fun (p : Prompt) (r : Result) =>
      r.bleu_base_shift = compute_bleu sb r.shift_text r.base_text ∧
      r.rouge_base_shift = compute_rouge rgL r.shift_text r.base_text ∧
      ∀ ref : String, p.reference = some ref → ¬ ref = "" →
        r.bleu_ref_base = some (compute_bleu sb r.base_text ref) ∧
        r.bleu_ref_shift = some (compute_bleu sb r.shift_text ref) ∧
        r.rouge_ref_base = some (compute_rouge rgL r.base_text ref) ∧
        r.rouge_ref_shift = some (compute_rouge rgL r.shift_text ref)) prompts results := by
  refine List.Forall₂.imp ?_ (evaluate_ok_forall2 client sb rgL bm sm mt tp prompts results h)
  rintro p r ⟨b, s, hb, hs, rfl⟩
  refine ⟨rfl, rfl, ?_⟩
  intro ref href hneref
  simp [mkResult, href, hneref]

/-- Closed instance of c5_scoring_roles at a one-prompt run with a
reference. -/
theorem c5_scoring_roles_witness :
    List.Forall₂ (fun (p : Prompt) (r : Result) =>
      r.bleu_base_shift = compute_bleu stubBleu r.shift_text r.base_text ∧
      r.rouge_base_shift = compute_rouge stubRouge r.shift_text r.base_text ∧
      ∀ ref : String, p.reference = some ref → ¬ ref = "" →
        r.bleu_ref_base = some (compute_bleu stubBleu r.base_text ref) ∧
        r.bleu_ref_shift = some (compute_bleu stubBleu r.shift_text ref) ∧
        r.rouge_ref_base = some (compute_rouge stubRouge r.base_text ref) ∧
        r.rouge_ref_shift = some (compute_rouge stubRouge r.shift_text ref))
      [{ prompt := some "q", reference := some "r" }]
      [stubRecordWithRef (some "q")] :=
  c5_scoring_roles stubClient stubBleu stubRouge "b" "s" 128 (7 / 10)
    [{ prompt := some "q", reference := some "r" }]
    [stubRecordWithRef (some "q")] rfl

/-- Claim C6: over a valid prompt file (each entry supplies a string
"prompt"; a "reference", when present, is a string), load_prompts pairs the
entries in file order with prompts whose prompt text is the entry's string
and whose reference is present exactly when the entry has the key. -/
theorem c6_load_prompts_order_and_reference (data : List Entry)
    (hv : ∀ e ∈ data, validYStr (lookupKey e "prompt") = true ∧
      (lookupKey e "reference" = none ∨ validYStr (lookupKey e "reference") = true)) :
    List.Forall₂ (fun (e : Entry) (p : Prompt) =>
      p.prompt = pyGet e "prompt" ∧ p.prompt.isSome = true ∧
      p.reference.isSome = (lookupKey e "reference").isSome) data (load_prompts data) := by
  induction data with
  | nil => exact List.Forall₂.nil
  | cons e es ih =>
    have he := hv e (List.mem_cons_self e es)
    have htail := ih (fun x hx => hv x (List.mem_cons_of_mem e hx))
    refine List.Forall₂.cons ⟨rfl, ?_, ?_⟩ htail
    · rcases h1 : lookupKey e "prompt" with _ | v
      · rw [h1] at he; exact absurd he.1 (by simp [validYStr])
      · rcases v with _ | s2
        · rw [h1] at he; exact absurd he.1 (by simp [validYStr])
        · simp [pyGet, h1]
    · rcases h2 : lookupKey e "reference" with _ | v
      · simp [pyGet, h2]
      · rcases v with _ | s2
        · rw [h2] at he
          rcases he.2 with hn | hs2
          · exact absurd hn (by simp)
          · exact absurd hs2 (by simp [validYStr])
        · simp [pyGet, h2]

/-- A two-entry valid prompt file: one entry without a reference, one
with. -/
def sampleEntries : List Entry :=
  [[("prompt", YVal.vstr "a")], [("prompt", YVal.vstr "b"), ("reference", YVal.vstr "r")]]

/-- Closed instance of c6_load_prompts_order_and_reference on
sampleEntries. -/
theorem c6_load_prompts_witness :
    List.Forall₂ (fun (e : Entry) (p : Prompt) =>
      p.prompt = pyGet e "prompt" ∧ p.prompt.isSome = true ∧
      p.reference.isSome = (lookupKey e "reference").isSome)
      sampleEntries (load_prompts sampleEntries) :=
  c6_load_prompts_order_and_reference sampleEntries (by decide)

/-- Full event trace of summarize on a non-empty record list: CSV with the
dataclass columns and one row per record, then the markdown sibling, then
the console table, then the final lift message when reference BLEU scores
exist. -/
theorem summarize_nonempty_fst (results : List Result) (out : String)
    (h : results.isEmpty = false) :
    (summarize results out).fst =
      Event.writeCsv resultFields results.length ::
      Event.writeMd (splitextStem out ++ ".md") ::
      Event.printTable ((if (results.map (fun r => r.bleu_ref_base)).any Option.isSome
          then ["Avg BLEU vs Ref"] else []) ++
        (if (results.map (fun r => r.rouge_ref_base)).any Option.isSome
          then ["Avg ROUGE-L vs Ref"] else [])) ::
      (if (results.map (fun r => r.bleu_ref_base)).any Option.isSome
        then [Event.printFinal (pyGeOpt (colMean (results.map (fun r => r.bleu_ref_shift)))
          (optMul (3 / 2) (colMean (results.map (fun r => r.bleu_ref_base)))))]
        else []) := by
  simp only [summarize, h, Bool.false_eq_true, if_false]
  rfl

/-- Claim C8, counterexample to the statement as written: on the empty
record sequence the CSV written has an empty column set, not the
EvaluationRecord field set. -/
theorem c8_cex_empty_records_csv_has_no_columns :
    (summarize [] "results.csv").fst =
      [Event.writeCsv [] 0, Event.writeMd "results.md"] ∧
    ([] : List String) ≠ resultFields := by decide

/-- Claim C8, amended: for every non-empty record sequence, the CSV written
at the output path has one row per record and exactly the EvaluationRecord
fields as columns, and the markdown table goes to the sibling path with the
extension replaced by ".md"; for the empty sequence the CSV has no columns.
This is the non-empty half; the empty case is settled separately. -/
theorem c8_rows_and_columns (results : List Result) (out : String)
    (hne : results ≠ []) :
    ∃ rest, (summarize results out).fst =
      Event.writeCsv resultFields results.length ::
      Event.writeMd (splitextStem out ++ ".md") :: rest := by
  have h : results.isEmpty = false := by
    cases results with
    | nil => exact absurd rfl hne
    | cons a l => rfl
  exact ⟨_, summarize_nonempty_fst results out h⟩

/-- Closed instance of c8_rows_and_columns on a one-record list. -/
theorem c8_rows_and_columns_witness :
    ∃ rest, (summarize [stubRecordWithRef (some "q")] "results.csv").fst =
      Event.writeCsv resultFields 1 ::
      Event.writeMd (splitextStem "results.csv" ++ ".md") :: rest :=
  c8_rows_and_columns [stubRecordWithRef (some "q")] "results.csv" (by decide)

/-- A column with some non-null entry has a non-NaN mean. -/
theorem colMean_isSome_of_any (xs : List (Option ℚ))
    (h : xs.any Option.isSome = true) : ∃ m, colMean xs = some m := by
  have h2 : ∃ x ∈ xs, x.isSome = true := by simpa using h
  obtain ⟨x, hx, hxs⟩ := h2
  obtain ⟨v, rfl⟩ := Option.isSome_iff_exists.mp hxs
  have hv : v ∈ xs.filterMap id := List.mem_filterMap.mpr ⟨some v, hx, rfl⟩
  have hlen : ¬ (xs.filterMap id).length = 0 := by
    intro h0
    rw [List.length_eq_zero] at h0
    rw [h0] at hv
    exact absurd hv (List.not_mem_nil v)
  refine ⟨(xs.filterMap id).sum / ((xs.filterMap id).length : ℚ), ?_⟩
  simp [colMean, hlen]

/-- Claim C3: on a non-empty record list in which some record carries a
reference BLEU score and the two reference BLEU fields are consistently
present (the invariant evaluate establishes), summarize prints the success
indicator exactly when the mean shift-vs-reference BLEU is at least 1.5
times the mean base-vs-reference BLEU, and the needs-improvement indicator
exactly otherwise. -/
theorem c3_lift_message (results : List Result) (out : String)
    (hne : results ≠ [])
    (hex : (results.map (fun r => r.bleu_ref_base)).any Option.isSome = true)
    (hc : ∀ r ∈ results, r.bleu_ref_base.isSome = r.bleu_ref_shift.isSome) :
    ∃ mb ms,
      colMean (results.map (fun r => r.bleu_ref_base)) = some mb ∧
      colMean (results.map (fun r => r.bleu_ref_shift)) = some ms ∧
      (Event.printFinal true ∈ (summarize results out).fst ↔ 3 / 2 * mb ≤ ms) ∧
      (Event.printFinal false ∈ (summarize results out).fst ↔ ¬ 3 / 2 * mb ≤ ms) := by
  have hisEmpty : results.isEmpty = false := by
    cases results with
    | nil => exact absurd rfl hne
    | cons a l => rfl
  have hexs : (results.map (fun r => r.bleu_ref_shift)).any Option.isSome = true := by
    simp only [List.any_eq_true, List.mem_map] at hex ⊢
    obtain ⟨x, ⟨r, hr, rfl⟩, hxs⟩ := hex
    exact ⟨r.bleu_ref_shift, ⟨r, hr, rfl⟩, by rw [← hc r hr]; exact hxs⟩
  obtain ⟨mb, hmb⟩ := colMean_isSome_of_any _ hex
  obtain ⟨ms, hms⟩ := colMean_isSome_of_any _ hexs
  have hfst : (summarize results out).fst =
      Event.writeCsv resultFields results.length ::
      Event.writeMd (splitextStem out ++ ".md") ::
      Event.printTable (["Avg BLEU vs Ref"] ++
        (if (results.map (fun r => r.rouge_ref_base)).any Option.isSome
          then ["Avg ROUGE-L vs Ref"] else [])) ::
      [Event.printFinal (pyGeOpt (some ms) (optMul (3 / 2) (some mb)))] := by
    rw [summarize_nonempty_fst results out hisEmpty, if_pos hex, if_pos hex, hmb, hms]
  refine ⟨mb, ms, hmb, hms, ?_, ?_⟩
  · rw [hfst]
    by_cases hcmp : 3 / 2 * mb ≤ ms
    · simp [pyGeOpt, optMul, hcmp]
    · simp [pyGeOpt, optMul, hcmp]
  · rw [hfst]
    by_cases hcmp : 3 / 2 * mb ≤ ms
    · simp [pyGeOpt, optMul, hcmp]
    · simp [pyGeOpt, optMul, hcmp]

/-- Closed instance of c3_lift_message on a one-record list carrying
reference scores. -/
theorem c3_lift_message_witness :
    ∃ mb ms,
      colMean ([stubRecordWithRef (some "q")].map (fun r => r.bleu_ref_base)) = some mb ∧
      colMean ([stubRecordWithRef (some "q")].map (fun r => r.bleu_ref_shift)) = some ms ∧
      (Event.printFinal true ∈ (summarize [stubRecordWithRef (some "q")] "results.csv").fst ↔
        3 / 2 * mb ≤ ms) ∧
      (Event.printFinal false ∈ (summarize [stubRecordWithRef (some "q")] "results.csv").fst ↔
        ¬ 3 / 2 * mb ≤ ms) :=
  c3_lift_message [stubRecordWithRef (some "q")] "results.csv" (by decide) (by decide)
    (by decide)

/-- Every event evaluate emits is a generation call, never a file write. -/
theorem evaluate_events_no_write (client : GenClient) (sb : BleuFn) (rgL : RougeFn)
    (bm sm : String) (mt : ℕ) (tp : ℚ) :
    ∀ (prompts : List Prompt), ∀ e ∈ (evaluate client sb rgL bm sm mt tp prompts).fst,
      isWriteEvent e = false
  | [] => by intro e he; simp [evaluate] at he
  | p :: ps => by
    intro e he
    rcases hb : call_model client bm p.prompt mt tp with eb | b
    · rw [evaluate, hb] at he
      simp only [List.mem_singleton] at he
      rw [he]; rfl
    · rcases hs : call_model client sm p.prompt mt tp with es | s
      · rw [evaluate, hb, hs] at he
        simp only [List.mem_cons, List.not_mem_nil, or_false] at he
        rcases he with he | he <;> (rw [he]; rfl)
      · rw [evaluate, hb, hs] at he
        simp only [List.mem_cons] at he
        rcases he with he | he | he
        · rw [he]; rfl
        · rw [he]; rfl
        · exact evaluate_events_no_write client sb rgL bm sm mt tp ps e he

/-- If the client fails on some prompt's base or shift call, the whole
evaluate run fails. -/
theorem evaluate_fails_of_call_failure (client : GenClient) (sb : BleuFn)
    (rgL : RougeFn) (bm sm : String) (mt : ℕ) (tp : ℚ) :
    ∀ (prompts : List Prompt),
      (∃ p ∈ prompts, isErrorB (call_model client bm p.prompt mt tp) = true ∨
        isErrorB (call_model client sm p.prompt mt tp) = true) →
      isErrorB (evaluate client sb rgL bm sm mt tp prompts).snd = true
  | [], h => by simp at h
  | p :: ps, h => by
    rcases hb : call_model client bm p.prompt mt tp with eb | b
    · rw [evaluate, hb]; rfl
    · rcases hs : call_model client sm p.prompt mt tp with es | s
      · rw [evaluate, hb, hs]; rfl
      · obtain ⟨q, hq, hfail⟩ := h
        rcases List.mem_cons.mp hq with rfl | hq2
        · exfalso
          rcases hfail with hf | hf
          · rw [hb] at hf; exact absurd hf (by simp [isErrorB])
          · rw [hs] at hf; exact absurd hf (by simp [isErrorB])
        · have htail := evaluate_fails_of_call_failure client sb rgL bm sm mt tp ps
            ⟨q, hq2, hfail⟩
          rw [evaluate, hb, hs]
          rcases ht : (evaluate client sb rgL bm sm mt tp ps).snd with e2 | rs
          · simp [ht, Except.map, isErrorB]
          · rw [ht] at htail; exact absurd htail (by simp [isErrorB])

/-- Claim C9: if the Generation Client fails on any prompt of the loaded
file (under the models main resolves from the environment), the run writes
no report output at all, neither the CSV nor the markdown file, and ends in
an error. -/
theorem c9_client_failure_no_report (env : List (String × String))
    (fileData : List Entry) (client : GenClient) (sb : BleuFn) (rgL : RougeFn)
    (mt : ℕ) (tp : ℚ) (out : String)
    (h : ∃ p ∈ load_prompts fileData,
      isErrorB (call_model client ((envGet env "BASE_MODEL").getD "") p.prompt mt tp) = true ∨
      isErrorB (call_model client ((envGet env "SHIFT_MODEL").getD "") p.prompt mt tp) = true) :
    (∀ e ∈ (mainRun env fileData client sb rgL mt tp out).fst, isWriteEvent e = false) ∧
    (mainRun env fileData client sb rgL mt tp out).snd ≠ none := by
  by_cases hgate : (!(pyTruthyStr (envGet env "BASE_MODEL")) ||
      !(pyTruthyStr (envGet env "SHIFT_MODEL"))) = true
  · constructor
    · intro e he
      rw [mainRun] at he
      rw [if_pos hgate] at he
      simp at he
    · rw [mainRun, if_pos hgate]
      simp
  · have hfail := evaluate_fails_of_call_failure client sb rgL
      ((envGet env "BASE_MODEL").getD "") ((envGet env "SHIFT_MODEL").getD "") mt tp
      (load_prompts fileData) h
    rcases hev : (evaluate client sb rgL ((envGet env "BASE_MODEL").getD "")
        ((envGet env "SHIFT_MODEL").getD "") mt tp (load_prompts fileData)).snd with e2 | rs
    · have hmain : mainRun env fileData client sb rgL mt tp out =
          (Event.loadPrompts :: (evaluate client sb rgL ((envGet env "BASE_MODEL").getD "")
            ((envGet env "SHIFT_MODEL").getD "") mt tp (load_prompts fileData)).fst,
           some (PyError.genFailure e2)) := by
        rw [mainRun, if_neg hgate]
        simp [hev]
      constructor
      · intro e he
        rw [hmain] at he
        rcases List.mem_cons.mp he with rfl | he2
        · rfl
        · exact evaluate_events_no_write client sb rgL _ _ mt tp (load_prompts fileData) e he2
      · rw [hmain]; simp
    · rw [hev] at hfail
      exact absurd hfail (by simp [isErrorB])

/-- A two-prompt file, the spec's fault-injection scenario. -/
def promptsFile2 : List Entry :=
  [[("prompt", YVal.vstr "p1")], [("prompt", YVal.vstr "p2")]]

/-- Closed instance of c9_client_failure_no_report: the fault-injected
client fails on the second prompt and no report file is written. -/
theorem c9_client_failure_witness :
    (∀ e ∈ (mainRun [("BASE_MODEL", "b"), ("SHIFT_MODEL", "s")] promptsFile2 failClient
        stubBleu stubRouge 128 (7 / 10) "results.csv").fst, isWriteEvent e = false) ∧
    (mainRun [("BASE_MODEL", "b"), ("SHIFT_MODEL", "s")] promptsFile2 failClient
        stubBleu stubRouge 128 (7 / 10) "results.csv").snd ≠ none :=
  c9_client_failure_no_report [("BASE_MODEL", "b"), ("SHIFT_MODEL", "s")] promptsFile2
    failClient stubBleu stubRouge 128 (7 / 10) "results.csv" (by decide)

end PSE
